import Mathlib

/-!
Verification of the resilience layer of `mcp-toolbox-db`
(`adk-mcp-app/src`): circuit breaker, error classifier, resilient client
(retry / metrics / cache), orchestrator failover, and batch executor.

Conventions of the embedding:
* Python `datetime` instants are modelled as `Nat` timestamps; a
  `timedelta` is a `Nat` duration in the same unit.  Wall-clock values
  that the code only stores (never branches on), such as measured
  execution durations, are supplied by the environment as opaque `Nat`s.
* Python dicts keyed by strings are association lists.
* Code that can raise is modelled in `Except`; the carrier of the raised
  Python exception is `PyError`.
-/

set_option autoImplicit false

namespace MCPToolbox

/-! ## Circuit breaker (`error_recovery.py`, class `CircuitBreaker`) -/

inductive CBState where
  | CLOSED
  | OPEN
  | HALF_OPEN
deriving DecidableEq, Repr

structure CircuitBreaker where
  failure_threshold : Nat
  recovery_timeout : Nat
  success_threshold : Nat
  state : CBState
  failure_count : Nat
  success_count : Nat
  last_failure_time : Option Nat
  state_changed_at : Nat
deriving DecidableEq, Repr

namespace CircuitBreaker

/-- `CircuitBreaker.__init__`. -/
def init (ft rt st now : Nat) : CircuitBreaker :=
  { failure_threshold := ft
    recovery_timeout := rt
    success_threshold := st
    state := .CLOSED
    failure_count := 0
    success_count := 0
    last_failure_time := none
    state_changed_at := now }

/-- `CircuitBreaker._open`. -/
def _open (cb : CircuitBreaker) (now : Nat) : CircuitBreaker :=
  { cb with state := .OPEN, state_changed_at := now, failure_count := 0, success_count := 0 }

/-- `CircuitBreaker._close`. -/
def _close (cb : CircuitBreaker) (now : Nat) : CircuitBreaker :=
  { cb with state := .CLOSED, state_changed_at := now, failure_count := 0, success_count := 0 }

/-- `CircuitBreaker._half_open`. -/
def _half_open (cb : CircuitBreaker) (now : Nat) : CircuitBreaker :=
  { cb with state := .HALF_OPEN, state_changed_at := now, success_count := 0 }

/-- `CircuitBreaker.call_succeeded`. -/
def call_succeeded (cb : CircuitBreaker) (now : Nat) : CircuitBreaker :=
  match cb.state with
  | .HALF_OPEN =>
      if cb.success_threshold ≤ cb.success_count + 1 then
        ({ cb with success_count := cb.success_count + 1 })._close now
      else
        { cb with success_count := cb.success_count + 1 }
  | .CLOSED => { cb with failure_count := 0 }
  | .OPEN => cb

/-- `CircuitBreaker.call_failed`. -/
def call_failed (cb : CircuitBreaker) (now : Nat) : CircuitBreaker :=
  match cb.state with
  | .CLOSED =>
      if cb.failure_threshold ≤ cb.failure_count + 1 then
        ({ cb with last_failure_time := some now, failure_count := cb.failure_count + 1 })._open now
      else
        { cb with last_failure_time := some now, failure_count := cb.failure_count + 1 }
  | .HALF_OPEN => ({ cb with last_failure_time := some now })._open now
  | .OPEN => { cb with last_failure_time := some now }

/-- `CircuitBreaker._should_attempt_recovery`: `now - last_failure_time > recovery_timeout`. -/
def _should_attempt_recovery (cb : CircuitBreaker) (now : Nat) : Bool :=
  match cb.last_failure_time with
  | none => true
  | some t => decide (cb.recovery_timeout < now - t)

/-- `CircuitBreaker.can_execute`; returns the result together with the updated breaker. -/
def can_execute (cb : CircuitBreaker) (now : Nat) : Bool × CircuitBreaker :=
  match cb.state with
  | .CLOSED => (true, cb)
  | .OPEN =>
      if cb._should_attempt_recovery now then (true, cb._half_open now) else (false, cb)
  | .HALF_OPEN => (true, cb)

/-- A run of consecutive `call_failed` invocations at the given times. -/
def applyFails (cb : CircuitBreaker) (ts : List Nat) : CircuitBreaker :=
  ts.foldl call_failed cb

/-- A run of consecutive `call_succeeded` invocations at the given times. -/
def applySuccs (cb : CircuitBreaker) (ts : List Nat) : CircuitBreaker :=
  ts.foldl call_succeeded cb

theorem applyFails_opens_aux (ts : List Nat) :
    ∀ (ft rt st fc sc : Nat) (lft : Option Nat) (sca : Nat),
    fc + ts.length = ft → ts ≠ [] →
    (applyFails ⟨ft, rt, st, .CLOSED, fc, sc, lft, sca⟩ ts).state = .OPEN ∧
    (applyFails ⟨ft, rt, st, .CLOSED, fc, sc, lft, sca⟩ ts).last_failure_time = ts.getLast? ∧
    (applyFails ⟨ft, rt, st, .CLOSED, fc, sc, lft, sca⟩ ts).failure_threshold = ft ∧
    (applyFails ⟨ft, rt, st, .CLOSED, fc, sc, lft, sca⟩ ts).recovery_timeout = rt ∧
    (applyFails ⟨ft, rt, st, .CLOSED, fc, sc, lft, sca⟩ ts).success_threshold = st := by
  induction ts with
  | nil => intro ft rt st fc sc lft sca _ h; exact absurd rfl h
  | cons t rest ih =>
    intro ft rt st fc sc lft sca hc _
    cases rest with
    | nil =>
      have hge : ft ≤ fc + 1 := by simp at hc; omega
      simp [applyFails, call_failed, _open, hge]
    | cons t2 rest2 =>
      have hlt : ¬ ft ≤ fc + 1 := by simp at hc; omega
      have happ : applyFails ⟨ft, rt, st, .CLOSED, fc, sc, lft, sca⟩ (t :: t2 :: rest2)
          = applyFails ⟨ft, rt, st, .CLOSED, fc + 1, sc, some t, sca⟩ (t2 :: rest2) := by
        simp [applyFails, call_failed, hlt]
      rw [happ]
      have hc2 : (fc + 1) + (t2 :: rest2).length = ft := by simp at hc ⊢; omega
      have h := ih ft rt st (fc + 1) sc (some t) sca hc2 (by simp)
      simpa [List.getLast?_cons_cons] using h

theorem applySuccs_closes_aux (ts : List Nat) :
    ∀ (ft rt st fc sc : Nat) (lft : Option Nat) (sca : Nat),
    sc + ts.length = st → ts ≠ [] →
    (applySuccs ⟨ft, rt, st, .HALF_OPEN, fc, sc, lft, sca⟩ ts).state = .CLOSED := by
  induction ts with
  | nil => intro ft rt st fc sc lft sca _ h; exact absurd rfl h
  | cons t rest ih =>
    intro ft rt st fc sc lft sca hc _
    cases rest with
    | nil =>
      have hge : st ≤ sc + 1 := by simp at hc; omega
      simp [applySuccs, call_succeeded, _close, hge]
    | cons t2 rest2 =>
      have hlt : ¬ st ≤ sc + 1 := by simp at hc; omega
      have happ : applySuccs ⟨ft, rt, st, .HALF_OPEN, fc, sc, lft, sca⟩ (t :: t2 :: rest2)
          = applySuccs ⟨ft, rt, st, .HALF_OPEN, fc, sc + 1, lft, sca⟩ (t2 :: rest2) := by
        simp [applySuccs, call_succeeded, hlt]
      rw [happ]
      have hc2 : (sc + 1) + (t2 :: rest2).length = st := by simp at hc ⊢; omega
      exact ih ft rt st fc (sc + 1) lft sca hc2 (by simp)

theorem applySuccs_closes (cb : CircuitBreaker) (ts : List Nat)
    (hs : cb.state = .HALF_OPEN) (hc : cb.success_count + ts.length = cb.success_threshold)
    (hne : ts ≠ []) : (cb.applySuccs ts).state = .CLOSED := by
  obtain ⟨ft, rt, st, state, fc, sc, lft, sca⟩ := cb
  simp only [CircuitBreaker.state] at hs
  subst hs
  simp only [CircuitBreaker.success_count, CircuitBreaker.success_threshold] at hc
  exact applySuccs_closes_aux ts ft rt st fc sc lft sca hc hne

theorem can_execute_open_rejects (cb : CircuitBreaker) (now t : Nat)
    (hs : cb.state = .OPEN) (hl : cb.last_failure_time = some t)
    (h : now - t ≤ cb.recovery_timeout) : cb.can_execute now = (false, cb) := by
  obtain ⟨ft, rt, st, state, fc, sc, lft, sca⟩ := cb
  simp only [CircuitBreaker.state] at hs
  subst hs
  simp only [CircuitBreaker.last_failure_time] at hl
  subst hl
  simp only [CircuitBreaker.recovery_timeout] at h
  simp [can_execute, _should_attempt_recovery]
  omega

theorem can_execute_open_half_opens (cb : CircuitBreaker) (now t : Nat)
    (hs : cb.state = .OPEN) (hl : cb.last_failure_time = some t)
    (h : cb.recovery_timeout < now - t) :
    cb.can_execute now = (true, cb._half_open now) := by
  obtain ⟨ft, rt, st, state, fc, sc, lft, sca⟩ := cb
  simp only [CircuitBreaker.state] at hs
  subst hs
  simp only [CircuitBreaker.last_failure_time] at hl
  subst hl
  simp only [CircuitBreaker.recovery_timeout] at h
  simp [can_execute, _should_attempt_recovery, h]

end CircuitBreaker

/-- One client-visible circuit-breaker operation, tagged with the wall-clock
instant at which it happens. -/
inductive CBOp where
  | succeeded (now : Nat)
  | failed (now : Nat)
  | canExec (now : Nat)
deriving DecidableEq, Repr

/-- Effect of one operation on the breaker state (`can_execute` is called for
its state effect; its boolean result is discarded here). -/
def CBOp.apply (cb : CircuitBreaker) : CBOp → CircuitBreaker
  | .succeeded t => cb.call_succeeded t
  | .failed t => cb.call_failed t
  | .canExec t => (cb.can_execute t).2

/-- Run a sequence of operations from a starting breaker. -/
def runOps (cb : CircuitBreaker) (ops : List CBOp) : CircuitBreaker :=
  ops.foldl CBOp.apply cb

/-- The inductive invariant of `CircuitBreaker` (strengthened with
positivity of the two thresholds, which the induction needs). -/
def CBInv (cb : CircuitBreaker) : Prop :=
  (cb.state = .CLOSED → cb.failure_count < cb.failure_threshold) ∧
  (cb.state = .HALF_OPEN → cb.success_count < cb.success_threshold) ∧
  1 ≤ cb.failure_threshold ∧ 1 ≤ cb.success_threshold

theorem CBInv_step (cb : CircuitBreaker) (op : CBOp) (h : CBInv cb) :
    CBInv (op.apply cb) := by
  obtain ⟨ft, rt, st, state, fc, sc, lft, sca⟩ := cb
  obtain ⟨h1, h2, h3, h4⟩ := h
  simp only [CircuitBreaker.state, CircuitBreaker.failure_count,
    CircuitBreaker.failure_threshold, CircuitBreaker.success_count,
    CircuitBreaker.success_threshold] at h1 h2 h3 h4
  cases op <;> cases state <;> cases lft <;>
    simp_all [CBInv, CBOp.apply, CircuitBreaker.call_succeeded, CircuitBreaker.call_failed,
      CircuitBreaker.can_execute, CircuitBreaker._open, CircuitBreaker._close,
      CircuitBreaker._half_open, CircuitBreaker._should_attempt_recovery] <;>
    (try split_ifs) <;> (try simp_all) <;> omega

theorem CBInv_runOps (ops : List CBOp) : ∀ (cb : CircuitBreaker),
    CBInv cb → CBInv (runOps cb ops) := by
  induction ops with
  | nil => intro cb h; simpa [runOps] using h
  | cons op rest ih =>
    intro cb h
    simpa [runOps] using ih (op.apply cb) (CBInv_step cb op h)

theorem apply_state_change_resets_success (cb : CircuitBreaker) (op : CBOp)
    (h : (op.apply cb).state ≠ cb.state) : (op.apply cb).success_count = 0 := by
  obtain ⟨ft, rt, st, state, fc, sc, lft, sca⟩ := cb
  cases op <;> cases state <;> cases lft <;>
    simp_all [CBOp.apply, CircuitBreaker.call_succeeded, CircuitBreaker.call_failed,
      CircuitBreaker.can_execute, CircuitBreaker._open, CircuitBreaker._close,
      CircuitBreaker._half_open, CircuitBreaker._should_attempt_recovery] <;>
    (try split_ifs) <;> simp_all

/-- C2: starting from a freshly initialised breaker with positive thresholds,
`failure_threshold` consecutive `call_failed` invocations open the circuit;
while `recovery_timeout` has not yet elapsed since the last failure,
`can_execute` returns `false` and leaves the breaker unchanged; the first
`can_execute` once it has elapsed returns `true` and moves the breaker to
HALF_OPEN; from there `success_threshold` consecutive `call_succeeded`
invocations return the breaker to CLOSED. -/
theorem C2_circuit_breaker_lifecycle
    (ft rt st t0 tLast tQuery tProbe : Nat) (hft : 1 ≤ ft) (hst : 1 ≤ st)
    (failTimes : List Nat) (hlen : failTimes.length = ft)
    (hlast : failTimes.getLast? = some tLast)
    (succTimes : List Nat) (hslen : succTimes.length = st)
    (hq : tQuery ≤ tLast + rt) (hp : tLast + rt < tProbe) :
    ((CircuitBreaker.init ft rt st t0).applyFails failTimes).state = .OPEN ∧
    ((CircuitBreaker.init ft rt st t0).applyFails failTimes).can_execute tQuery
      = (false, (CircuitBreaker.init ft rt st t0).applyFails failTimes) ∧
    (((CircuitBreaker.init ft rt st t0).applyFails failTimes).can_execute tProbe).1 = true ∧
    ((((CircuitBreaker.init ft rt st t0).applyFails failTimes).can_execute tProbe).2).state
      = .HALF_OPEN ∧
    (((((CircuitBreaker.init ft rt st t0).applyFails failTimes).can_execute
      tProbe).2).applySuccs succTimes).state = .CLOSED := by
  have hne : failTimes ≠ [] := by
    intro hnil
    rw [hnil] at hlen
    simp at hlen
    omega
  obtain ⟨hOpen, hLft, hFt, hRt, hSt⟩ :=
    CircuitBreaker.applyFails_opens_aux failTimes ft rt st 0 0 none t0
      (by simpa using hlen) hne
  have hLft2 : ((CircuitBreaker.init ft rt st t0).applyFails failTimes).last_failure_time
      = some tLast := by
    rw [show ((CircuitBreaker.init ft rt st t0).applyFails failTimes).last_failure_time
      = failTimes.getLast? from hLft, hlast]
  have hRejects := CircuitBreaker.can_execute_open_rejects
    ((CircuitBreaker.init ft rt st t0).applyFails failTimes) tQuery tLast hOpen hLft2
    (by rw [show ((CircuitBreaker.init ft rt st t0).applyFails failTimes).recovery_timeout
      = rt from hRt]; omega)
  have hGoes := CircuitBreaker.can_execute_open_half_opens
    ((CircuitBreaker.init ft rt st t0).applyFails failTimes) tProbe tLast hOpen hLft2
    (by rw [show ((CircuitBreaker.init ft rt st t0).applyFails failTimes).recovery_timeout
      = rt from hRt]; omega)
  refine ⟨hOpen, hRejects, by rw [hGoes], by rw [hGoes]; rfl, ?_⟩
  rw [hGoes]
  apply CircuitBreaker.applySuccs_closes
  · rfl
  · simpa [CircuitBreaker._half_open, CircuitBreaker.init, hSt] using hslen
  · intro hnil
    rw [hnil] at hslen
    simp at hslen
    omega

/-- Witness for C2 at concrete parameters. -/
theorem C2_circuit_breaker_lifecycle_witness :
    ((1 : Nat) ≤ 2 ∧ ([1, 2] : List Nat).length = 2 ∧ ([1, 2] : List Nat).getLast? = some 2
      ∧ (12 : Nat) ≤ 2 + 10 ∧ 2 + 10 < 13) ∧
    (((CircuitBreaker.init 2 10 2 0).applyFails [1, 2]).state = .OPEN ∧
    ((CircuitBreaker.init 2 10 2 0).applyFails [1, 2]).can_execute 12
      = (false, (CircuitBreaker.init 2 10 2 0).applyFails [1, 2]) ∧
    (((CircuitBreaker.init 2 10 2 0).applyFails [1, 2]).can_execute 13).1 = true ∧
    ((((CircuitBreaker.init 2 10 2 0).applyFails [1, 2]).can_execute 13).2).state
      = .HALF_OPEN ∧
    (((((CircuitBreaker.init 2 10 2 0).applyFails [1, 2]).can_execute
      13).2).applySuccs [14, 15]).state = .CLOSED) :=
  ⟨⟨by decide, by decide, by decide, by decide, by decide⟩,
    C2_circuit_breaker_lifecycle 2 10 2 0 2 12 13 (by decide) (by decide)
      [1, 2] (by decide) (by decide) [14, 15] (by decide) (by decide) (by decide)⟩

/-- C9: in every state reachable from the initial CLOSED breaker (with positive
thresholds) by any sequence of `call_succeeded`, `call_failed` and `can_execute`
operations, CLOSED implies `failure_count < failure_threshold` and HALF_OPEN
implies `success_count < success_threshold`; moreover every operation that
changes the state (i.e. every transition into OPEN, CLOSED or HALF_OPEN)
leaves `success_count = 0`. -/
theorem C9_reachable_invariant (ft rt st t0 : Nat) (hft : 1 ≤ ft) (hst : 1 ≤ st)
    (ops : List CBOp) :
    ((runOps (CircuitBreaker.init ft rt st t0) ops).state = .CLOSED →
      (runOps (CircuitBreaker.init ft rt st t0) ops).failure_count
        < (runOps (CircuitBreaker.init ft rt st t0) ops).failure_threshold) ∧
    ((runOps (CircuitBreaker.init ft rt st t0) ops).state = .HALF_OPEN →
      (runOps (CircuitBreaker.init ft rt st t0) ops).success_count
        < (runOps (CircuitBreaker.init ft rt st t0) ops).success_threshold) ∧
    (∀ (cb : CircuitBreaker) (op : CBOp),
      (op.apply cb).state ≠ cb.state → (op.apply cb).success_count = 0) := by
  have h0 : CBInv (CircuitBreaker.init ft rt st t0) := by
    refine ⟨?_, ?_, hft, hst⟩
    · intro _; simpa [CircuitBreaker.init] using hft
    · intro h; simp [CircuitBreaker.init] at h
  obtain ⟨h1, h2, _, _⟩ := CBInv_runOps ops (CircuitBreaker.init ft rt st t0) h0
  exact ⟨h1, h2, apply_state_change_resets_success⟩

/-- Witness for C9 at concrete parameters. -/
theorem C9_reachable_invariant_witness :
    ((1 : Nat) ≤ 5 ∧ (1 : Nat) ≤ 2) ∧
    (((runOps (CircuitBreaker.init 5 60 2 0) [.failed 1, .canExec 2, .succeeded 3]).state
        = .CLOSED →
      (runOps (CircuitBreaker.init 5 60 2 0) [.failed 1, .canExec 2, .succeeded 3]).failure_count
        < (runOps (CircuitBreaker.init 5 60 2 0)
            [.failed 1, .canExec 2, .succeeded 3]).failure_threshold) ∧
    ((runOps (CircuitBreaker.init 5 60 2 0) [.failed 1, .canExec 2, .succeeded 3]).state
        = .HALF_OPEN →
      (runOps (CircuitBreaker.init 5 60 2 0) [.failed 1, .canExec 2, .succeeded 3]).success_count
        < (runOps (CircuitBreaker.init 5 60 2 0)
            [.failed 1, .canExec 2, .succeeded 3]).success_threshold) ∧
    (∀ (cb : CircuitBreaker) (op : CBOp),
      (op.apply cb).state ≠ cb.state → (op.apply cb).success_count = 0)) :=
  ⟨⟨by decide, by decide⟩,
    C9_reachable_invariant 5 60 2 0 (by decide) (by decide)
      [.failed 1, .canExec 2, .succeeded 3]⟩

/-! ## Error classifier (`error_recovery.py`, `ErrorRecoveryManager.classify_error`) -/

inductive ErrorType where
  | CONNECTION_ERROR
  | TIMEOUT_ERROR
  | VALIDATION_ERROR
  | RATE_LIMIT_ERROR
  | AUTHENTICATION_ERROR
  | SERVER_ERROR
  | UNKNOWN_ERROR
deriving DecidableEq, Repr

/-- Is `sub` a contiguous sublist of the second argument? -/
def charsContain (sub : List Char) : List Char → Bool
  | [] => sub.isEmpty
  | c :: rest => sub.isPrefixOf (c :: rest) || charsContain sub rest

/-- Python `sub in s` on strings (substring containment). -/
def strIn (sub s : String) : Bool :=
  charsContain sub.toList s.toList

/-- Python `str.lower()` (character-wise lowercasing; identical to
`String.toLower` but stated on the character list so that it evaluates). -/
def pyLower (s : String) : String :=
  ⟨s.data.map Char.toLower⟩

/-- `any(term in error_str for term in terms)`. -/
def anyTermIn (terms : List String) (s : String) : Bool :=
  terms.any (fun t => strIn t s)

def connectionTerms : List String := ["connection", "connect", "network"]

def timeoutTerms : List String := ["timeout", "timed out"]

def validationTerms : List String := ["validation", "invalid", "missing required"]

def rateLimitTerms : List String := ["rate limit", "too many requests", "429"]

def authTerms : List String := ["unauthorized", "authentication", "401", "403"]

def serverTerms : List String := ["server error", "500", "502", "503"]

/-- `ErrorRecoveryManager.classify_error`, the argument being `str(error)`. -/
def classify_error (error : String) : ErrorType :=
  let error_str := pyLower error
  if anyTermIn connectionTerms error_str then .CONNECTION_ERROR
  else if anyTermIn timeoutTerms error_str then .TIMEOUT_ERROR
  else if anyTermIn validationTerms error_str then .VALIDATION_ERROR
  else if anyTermIn rateLimitTerms error_str then .RATE_LIMIT_ERROR
  else if anyTermIn authTerms error_str then .AUTHENTICATION_ERROR
  else if anyTermIn serverTerms error_str then .SERVER_ERROR
  else .UNKNOWN_ERROR

/-- Does the message contain the decimal digits of some 5xx HTTP status code?
(Formalisation of the claim wording "contains a 5xx term".) -/
def containsFiveXX (s : String) : Bool :=
  (List.range 100).any (fun i => strIn (toString (500 + i)) (pyLower s))

/-- The ordered classification table, as the spec describes it (used to state
the amended claim: first category in precedence order whose terms match). -/
def classifierTable : List (List String × ErrorType) :=
  [(connectionTerms, .CONNECTION_ERROR),
   (timeoutTerms, .TIMEOUT_ERROR),
   (validationTerms, .VALIDATION_ERROR),
   (rateLimitTerms, .RATE_LIMIT_ERROR),
   (authTerms, .AUTHENTICATION_ERROR),
   (serverTerms, .SERVER_ERROR)]

/-- First-match-wins classification over the ordered table. -/
def classifyFirstMatch (error : String) : ErrorType :=
  match classifierTable.find? (fun row => anyTermIn row.1 (pyLower error)) with
  | some row => row.2
  | none => .UNKNOWN_ERROR

/-- C7 counterexample: the message "504" contains a 5xx status code and matches
none of the earlier categories, yet the classifier does not map it to
SERVER_ERROR (it yields UNKNOWN_ERROR), so the claim as stated is false. -/
theorem C7_counterexample :
    containsFiveXX "504" = true ∧
    anyTermIn connectionTerms "504" = false ∧
    anyTermIn timeoutTerms "504" = false ∧
    anyTermIn validationTerms "504" = false ∧
    anyTermIn rateLimitTerms "504" = false ∧
    anyTermIn authTerms "504" = false ∧
    classify_error "504" = .UNKNOWN_ERROR := by
  decide

/-- C7 amended: the classifier assigns exactly one `ErrorType` by ordered
substring matching with precedence CONNECTION, TIMEOUT, VALIDATION,
RATE_LIMIT, AUTH, SERVER, UNKNOWN — the first category in this order whose
terms match wins (so a message with both a connection term and a timeout term
classifies as CONNECTION) — where the SERVER terms are exactly
"server error", "500", "502", "503" (not every 5xx code). -/
theorem C7_classifier_precedence (msg : String) :
    classify_error msg = classifyFirstMatch msg ∧
    (anyTermIn connectionTerms (pyLower msg) = true →
      anyTermIn timeoutTerms (pyLower msg) = true →
      classify_error msg = .CONNECTION_ERROR) ∧
    (anyTermIn serverTerms (pyLower msg) = true →
      anyTermIn connectionTerms (pyLower msg) = false →
      anyTermIn timeoutTerms (pyLower msg) = false →
      anyTermIn validationTerms (pyLower msg) = false →
      anyTermIn rateLimitTerms (pyLower msg) = false →
      anyTermIn authTerms (pyLower msg) = false →
      classify_error msg = .SERVER_ERROR) := by
  refine ⟨?_, ?_, ?_⟩
  · simp only [classify_error, classifyFirstMatch, classifierTable, List.find?]
    by_cases h1 : anyTermIn connectionTerms (pyLower msg) <;>
      by_cases h2 : anyTermIn timeoutTerms (pyLower msg) <;>
      by_cases h3 : anyTermIn validationTerms (pyLower msg) <;>
      by_cases h4 : anyTermIn rateLimitTerms (pyLower msg) <;>
      by_cases h5 : anyTermIn authTerms (pyLower msg) <;>
      by_cases h6 : anyTermIn serverTerms (pyLower msg) <;>
      simp [h1, h2, h3, h4, h5, h6]
  · intro h1 _
    simp [classify_error, h1]
  · intro h6 h1 h2 h3 h4 h5
    simp [classify_error, h1, h2, h3, h4, h5, h6]

/-- Witness for C7 amended: a message containing both a connection term and a
timeout term classifies as CONNECTION (precedence), hypotheses discharged at
the concrete input. -/
theorem C7_classifier_precedence_witness :
    classify_error "connection timeout" = .CONNECTION_ERROR :=
  (C7_classifier_precedence "connection timeout").2.1 (by decide) (by decide)

/-! ## Resilient client (`enhanced_mcp_client.py`, class `EnhancedMCPClient`)

The network is abstracted by `NetEnv`: `attempt k` is what the `k`-th POST of
the current call does (HTTP 200 with a parseable body, a non-200 status, a
raised `httpx.RequestError`, or another raised exception); `now` is the
wall-clock instant of the call and `dur` the measured duration, both opaque. -/

/-- Python-dict lookup (string keys). -/
def dictGet {α : Type} : List (String × α) → String → Option α
  | [], _ => none
  | (k2, v) :: rest, k => if k2 = k then some v else dictGet rest k

/-- Python-dict assignment: replace the binding if present, else append. -/
def dictSet {α : Type} : List (String × α) → String → α → List (String × α)
  | [], k, v => [(k, v)]
  | (k2, v2) :: rest, k, v =>
      if k2 = k then (k, v) :: rest else (k2, v2) :: dictSet rest k v

/-- Python `del d[k]`. -/
def dictDel {α : Type} : List (String × α) → String → List (String × α)
  | [], _ => []
  | (k2, v2) :: rest, k => if k2 = k then rest else (k2, v2) :: dictDel rest k

/-- `MCPToolMetrics` dataclass. -/
structure MCPToolMetrics where
  tool_name : String
  execution_count : Nat := 0
  success_count : Nat := 0
  failure_count : Nat := 0
  total_duration_ms : Nat := 0
  last_execution : Option Nat := none
  last_error : Option String := none
deriving DecidableEq, Repr

/-- The dict `invoke_tool` returns: either a parsed MCP payload (the body is
abstracted by a `Nat`) with status success, or the error dict the client
builds, carrying the error message and status error. -/
inductive ToolPayload where
  | success (v : Nat)
  | errorDict (msg : String)
deriving DecidableEq, Repr

/-- What one network attempt (one `client.post`) does. -/
inductive AttemptOutcome where
  | http200 (v : Nat)
  | httpStatus (code : Nat) (text : String)
  | requestError (msg : String)
  | otherError (msg : String)
deriving DecidableEq, Repr

/-- Environment of one `invoke_tool` call. -/
structure NetEnv where
  attempt : Nat → AttemptOutcome
  now : Nat
  dur : Nat

/-- The state of `EnhancedMCPClient` relevant to tool invocation. -/
structure EnhancedMCPClient where
  max_retries : Nat
  cache_ttl : Nat
  metrics : List (String × MCPToolMetrics)
  cache : List (String × ToolPayload × Nat)
deriving DecidableEq, Repr

/-- Sorted insertion for `json.dumps(..., sort_keys=True)`. -/
def insertSortedByKey (p : String × String) :
    List (String × String) → List (String × String)
  | [] => [p]
  | q :: rest => if p.1 ≤ q.1 then p :: q :: rest else q :: insertSortedByKey p rest

/-- Key-sorted parameter list. -/
def sortByKey : List (String × String) → List (String × String)
  | [] => []
  | p :: rest => insertSortedByKey p (sortByKey rest)

/-- `json.dumps(params, sort_keys=True)` for string-valued parameters. -/
def json_dumps_sorted (params : List (String × String)) : String :=
  "\x7b" ++ String.intercalate ", "
    ((sortByKey params).map (fun kv => "\"" ++ kv.1 ++ "\": \"" ++ kv.2 ++ "\"")) ++ "\x7d"

namespace EnhancedMCPClient

/-- `EnhancedMCPClient._get_cache_key`. -/
def _get_cache_key (tool_name : String) (params : List (String × String)) : String :=
  tool_name ++ ":" ++ json_dumps_sorted params

/-- `EnhancedMCPClient._get_cached_result`: valid entries are returned,
expired entries are deleted lazily. -/
def _get_cached_result (c : EnhancedMCPClient) (cache_key : String) (now : Nat) :
    Option ToolPayload × EnhancedMCPClient :=
  match dictGet c.cache cache_key with
  | some (result, timestamp) =>
      if now - timestamp < c.cache_ttl then (some result, c)
      else (none, { c with cache := dictDel c.cache cache_key })
  | none => (none, c)

/-- `EnhancedMCPClient._set_cached_result`. -/
def _set_cached_result (c : EnhancedMCPClient) (cache_key : String)
    (result : ToolPayload) (now : Nat) : EnhancedMCPClient :=
  { c with cache := dictSet c.cache cache_key (result, now) }

/-- `MCPToolMetrics(tool_name)` with default fields. -/
def newMetrics (tool_name : String) : MCPToolMetrics :=
  { tool_name := tool_name }

/-- The metrics entry currently recorded for a tool (defaulting to fresh). -/
def getMetric (c : EnhancedMCPClient) (tool : String) : MCPToolMetrics :=
  (dictGet c.metrics tool).getD (newMetrics tool)

def setMetric (c : EnhancedMCPClient) (tool : String) (m : MCPToolMetrics) :
    EnhancedMCPClient :=
  { c with metrics := dictSet c.metrics tool m }

/-- The success-path metric updates of `invoke_tool`. -/
def recordSuccess (c : EnhancedMCPClient) (tool : String) (env : NetEnv) :
    EnhancedMCPClient :=
  let m := c.getMetric tool
  c.setMetric tool { m with
    success_count := m.success_count + 1
    total_duration_ms := m.total_duration_ms + env.dur
    last_execution := some env.now }

/-- The failure-path metric updates of `invoke_tool`. -/
def recordFailure (c : EnhancedMCPClient) (tool : String) (msg : String) (env : NetEnv) :
    EnhancedMCPClient :=
  let m := c.getMetric tool
  c.setMetric tool { m with
    failure_count := m.failure_count + 1
    last_error := some msg
    last_execution := some env.now }

/-- The `for attempt in range(self.max_retries)` loop of `invoke_tool`.
`fuel` is the number of remaining iterations; `none` means the loop ended
without returning (falling through to the code after the loop).  A 5xx
status and a non-final `httpx.RequestError` just move to the next iteration
(for a 5xx on the final attempt the loop simply ends); a `RequestError` on
the final attempt records a failure in the metrics and then lets the loop
end; a 4xx status or an unexpected exception returns the error dict at
once. -/
def invokeLoop (env : NetEnv) (tool : String) (cache_key : String) (use_cache : Bool)
    (max_retries : Nat) :
    Nat → Nat → EnhancedMCPClient → Option ToolPayload × EnhancedMCPClient
  | _, 0, c => (none, c)
  | attempt, fuel + 1, c =>
      match env.attempt attempt with
      | .http200 v =>
          let c := c.recordSuccess tool env
          let c := if use_cache then c._set_cached_result cache_key (.success v) env.now
                   else c
          (some (.success v), c)
      | .httpStatus code text =>
          if 500 ≤ code then
            invokeLoop env tool cache_key use_cache max_retries (attempt + 1) fuel c
          else
            let error_msg := "HTTP " ++ toString code ++ ": " ++ text
            (some (.errorDict error_msg), c.recordFailure tool error_msg env)
      | .requestError msg =>
          if attempt < max_retries - 1 then
            invokeLoop env tool cache_key use_cache max_retries (attempt + 1) fuel c
          else
            invokeLoop env tool cache_key use_cache max_retries (attempt + 1) fuel
              (c.recordFailure tool msg env)
      | .otherError msg =>
          (some (.errorDict msg), c.recordFailure tool msg env)

/-- `if tool_name not in self.metrics: self.metrics[tool_name] = MCPToolMetrics(...)`. -/
def ensureMetric (c : EnhancedMCPClient) (tool_name : String) : EnhancedMCPClient :=
  if (dictGet c.metrics tool_name).isSome then c
  else { c with metrics := dictSet c.metrics tool_name (newMetrics tool_name) }

/-- `metric.execution_count += 1`. -/
def bumpExecution (c : EnhancedMCPClient) (tool_name : String) : EnhancedMCPClient :=
  let m := c.getMetric tool_name
  c.setMetric tool_name { m with execution_count := m.execution_count + 1 }

/-- `EnhancedMCPClient.invoke_tool`. -/
def invoke_tool (c : EnhancedMCPClient) (env : NetEnv) (tool_name : String)
    (params : List (String × String)) (use_cache : Bool) :
    ToolPayload × EnhancedMCPClient :=
  let cache_key := _get_cache_key tool_name params
  let checked := if use_cache then c._get_cached_result cache_key env.now else (none, c)
  match checked with
  | (some cached_result, c) => (cached_result, c)
  | (none, c) =>
    let c := c.ensureMetric tool_name
    let c := c.bumpExecution tool_name
    match invokeLoop env tool_name cache_key use_cache c.max_retries 0 c.max_retries c with
    | (some r, c) => (r, c)
    | (none, c) =>
        let error_msg := "Failed after " ++ toString c.max_retries ++ " attempts"
        (.errorDict error_msg, c.recordFailure tool_name error_msg env)

end EnhancedMCPClient

theorem dictGet_dictSet_self {α : Type} (d : List (String × α)) (k : String) (v : α) :
    dictGet (dictSet d k v) k = some v := by
  induction d with
  | nil => simp [dictGet, dictSet]
  | cons p rest ih =>
    obtain ⟨k2, v2⟩ := p
    by_cases h : k2 = k
    · simp [dictGet, dictSet, h]
    · simp [dictGet, dictSet, h, ih]

namespace EnhancedMCPClient

theorem invoke_tool_cache_hit (c : EnhancedMCPClient) (env : NetEnv) (tool : String)
    (params : List (String × String)) (r : ToolPayload) (ts : Nat)
    (hhit : dictGet c.cache (_get_cache_key tool params) = some (r, ts))
    (hvalid : env.now - ts < c.cache_ttl) :
    c.invoke_tool env tool params true = (r, c) := by
  simp [invoke_tool, _get_cached_result, hhit, hvalid]

theorem invoke_tool_miss_success (c : EnhancedMCPClient) (env : NetEnv) (tool : String)
    (params : List (String × String)) (v : Nat)
    (hmr : 1 ≤ c.max_retries)
    (hmiss : dictGet c.cache (_get_cache_key tool params) = none)
    (h0 : env.attempt 0 = .http200 v) :
    (c.invoke_tool env tool params true).1 = .success v ∧
    (c.invoke_tool env tool params true).2.cache
      = dictSet c.cache (_get_cache_key tool params) (.success v, env.now) ∧
    (c.invoke_tool env tool params true).2.cache_ttl = c.cache_ttl ∧
    (c.invoke_tool env tool params true).2.max_retries = c.max_retries ∧
    ((c.invoke_tool env tool params true).2.getMetric tool).execution_count
      = (c.getMetric tool).execution_count + 1 := by
  obtain ⟨mr, ttl, ms, cch⟩ := c
  simp only [EnhancedMCPClient.max_retries] at hmr
  simp only [EnhancedMCPClient.cache] at hmiss
  cases mr with
  | zero => omega
  | succ n =>
    cases hd : dictGet ms tool with
    | none =>
      simp [invoke_tool, _get_cached_result, hmiss, ensureMetric, bumpExecution,
        invokeLoop, h0, recordSuccess, _set_cached_result, getMetric, setMetric,
        hd, dictGet_dictSet_self, newMetrics]
    | some m =>
      simp [invoke_tool, _get_cached_result, hmiss, ensureMetric, bumpExecution,
        invokeLoop, h0, recordSuccess, _set_cached_result, getMetric, setMetric,
        hd, dictGet_dictSet_self, newMetrics]

theorem invoke_tool_expired_refetch (c : EnhancedMCPClient) (env : NetEnv) (tool : String)
    (params : List (String × String)) (r : ToolPayload) (ts w : Nat)
    (hmr : 1 ≤ c.max_retries)
    (hhit : dictGet c.cache (_get_cache_key tool params) = some (r, ts))
    (hexp : c.cache_ttl ≤ env.now - ts)
    (h0 : env.attempt 0 = .http200 w) :
    (c.invoke_tool env tool params true).1 = .success w ∧
    ((c.invoke_tool env tool params true).2.getMetric tool).execution_count
      = (c.getMetric tool).execution_count + 1 := by
  obtain ⟨mr, ttl, ms, cch⟩ := c
  simp only [EnhancedMCPClient.max_retries] at hmr
  simp only [EnhancedMCPClient.cache] at hhit
  simp only [EnhancedMCPClient.cache_ttl] at hexp
  have hnv : ¬ (env.now - ts < ttl) := by omega
  cases mr with
  | zero => omega
  | succ n =>
    cases hd : dictGet ms tool with
    | none =>
      simp [invoke_tool, _get_cached_result, hhit, hnv, ensureMetric, bumpExecution,
        invokeLoop, h0, recordSuccess, _set_cached_result, getMetric, setMetric,
        hd, dictGet_dictSet_self, newMetrics]
    | some m =>
      simp [invoke_tool, _get_cached_result, hhit, hnv, ensureMetric, bumpExecution,
        invokeLoop, h0, recordSuccess, _set_cached_result, getMetric, setMetric,
        hd, dictGet_dictSet_self, newMetrics]

end EnhancedMCPClient

/-- C6: with caching enabled, after a first successful `invoke_tool` call at
time `t1` on a cache-missing key, a second call on the same tool and
parameters whose time is within `cache_ttl` of `t1` returns the identical
cached payload and leaves the client state completely unchanged, whatever its
network environment does — i.e. no second network request happens; once
`cache_ttl` has elapsed since insertion the entry is treated as absent and
the next call performs the network request again (its result is the new
network answer and `execution_count` is incremented). -/
theorem C6_cache_within_ttl_and_expiry (c : EnhancedMCPClient) (tool : String)
    (params : List (String × String)) (t1 v d1 : Nat)
    (hmr : 1 ≤ c.max_retries)
    (hmiss : dictGet c.cache (EnhancedMCPClient._get_cache_key tool params) = none) :
    (c.invoke_tool ⟨fun _ => .http200 v, t1, d1⟩ tool params true).1 = .success v ∧
    (∀ env2 : NetEnv, env2.now - t1 < c.cache_ttl →
      ((c.invoke_tool ⟨fun _ => .http200 v, t1, d1⟩ tool params true).2).invoke_tool
          env2 tool params true
        = (.success v, (c.invoke_tool ⟨fun _ => .http200 v, t1, d1⟩ tool params true).2)) ∧
    (∀ (env2 : NetEnv) (w : Nat), c.cache_ttl ≤ env2.now - t1 → env2.attempt 0 = .http200 w →
      (((c.invoke_tool ⟨fun _ => .http200 v, t1, d1⟩ tool params true).2).invoke_tool
          env2 tool params true).1 = .success w ∧
      ((((c.invoke_tool ⟨fun _ => .http200 v, t1, d1⟩ tool params true).2).invoke_tool
          env2 tool params true).2.getMetric tool).execution_count
        = (((c.invoke_tool ⟨fun _ => .http200 v, t1, d1⟩ tool params
            true).2).getMetric tool).execution_count + 1) := by
  obtain ⟨h1, hcache, httl, hmr2, hexec⟩ :=
    EnhancedMCPClient.invoke_tool_miss_success c ⟨fun _ => .http200 v, t1, d1⟩ tool params v
      hmr hmiss rfl
  have hhit : dictGet ((c.invoke_tool ⟨fun _ => .http200 v, t1, d1⟩ tool params
      true).2).cache (EnhancedMCPClient._get_cache_key tool params)
      = some (.success v, t1) := by
    rw [hcache]
    exact dictGet_dictSet_self c.cache _ _
  refine ⟨h1, ?_, ?_⟩
  · intro env2 hfresh
    exact EnhancedMCPClient.invoke_tool_cache_hit _ env2 tool params (.success v) t1 hhit
      (by rw [httl]; exact hfresh)
  · intro env2 w hexp h0
    exact EnhancedMCPClient.invoke_tool_expired_refetch _ env2 tool params (.success v) t1 w
      (by rw [hmr2]; exact hmr) hhit (by rw [httl]; exact hexp) h0

/-- Witness for C6 at a concrete client, tool, parameters and times. -/
theorem C6_cache_within_ttl_and_expiry_witness :
    ((1 : Nat) ≤ (3 : Nat) ∧ dictGet (([] : List (String × ToolPayload × Nat)))
        (EnhancedMCPClient._get_cache_key "list_products" []) = none) ∧
    ((EnhancedMCPClient.invoke_tool ⟨3, 300, [], []⟩ ⟨fun _ => .http200 42, 100, 5⟩
        "list_products" [] true).1 = .success 42 ∧
    (∀ env2 : NetEnv, env2.now - 100 < (⟨3, 300, [], []⟩ : EnhancedMCPClient).cache_ttl →
      ((EnhancedMCPClient.invoke_tool ⟨3, 300, [], []⟩ ⟨fun _ => .http200 42, 100, 5⟩
          "list_products" [] true).2).invoke_tool env2 "list_products" [] true
        = (.success 42, (EnhancedMCPClient.invoke_tool ⟨3, 300, [], []⟩
            ⟨fun _ => .http200 42, 100, 5⟩ "list_products" [] true).2)) ∧
    (∀ (env2 : NetEnv) (w : Nat),
        (⟨3, 300, [], []⟩ : EnhancedMCPClient).cache_ttl ≤ env2.now - 100 →
        env2.attempt 0 = .http200 w →
      (((EnhancedMCPClient.invoke_tool ⟨3, 300, [], []⟩ ⟨fun _ => .http200 42, 100, 5⟩
          "list_products" [] true).2).invoke_tool env2 "list_products" [] true).1
        = .success w ∧
      ((((EnhancedMCPClient.invoke_tool ⟨3, 300, [], []⟩ ⟨fun _ => .http200 42, 100, 5⟩
          "list_products" [] true).2).invoke_tool env2 "list_products" [] true).2.getMetric
          "list_products").execution_count
        = ((((EnhancedMCPClient.invoke_tool ⟨3, 300, [], []⟩
              ⟨fun _ => .http200 42, 100, 5⟩ "list_products" []
              true).2)).getMetric "list_products").execution_count + 1)) :=
  ⟨⟨by decide, by simp [dictGet]⟩,
    C6_cache_within_ttl_and_expiry ⟨3, 300, [], []⟩ "list_products" [] 100 42 5
      (by decide) (by simp [dictGet])⟩

/-- The client and environment of the C5 failing input: a fresh client with
`max_retries = 3` against a target whose every attempt raises
`httpx.RequestError`. -/
def c5_client : EnhancedMCPClient := ⟨3, 300, [], []⟩

def c5_env : NetEnv := ⟨fun _ => .requestError "connection refused", 100, 7⟩

/-- C5 (code bug): on a non-cache-hit `invoke_tool` call whose every network
attempt raises `httpx.RequestError`, the tool metrics record
`execution_count = 1` but `failure_count = 2` — the final attempt's except
branch increments `failure_count` and the code after the loop increments it
again — contradicting "exactly one of success_count or failure_count
increases by exactly 1". -/
theorem C5_metrics_double_failure_count :
    ((EnhancedMCPClient.invoke_tool c5_client c5_env "list_products" []
        true).2.getMetric "list_products").execution_count = 1 ∧
    ((EnhancedMCPClient.invoke_tool c5_client c5_env "list_products" []
        true).2.getMetric "list_products").success_count = 0 ∧
    ((EnhancedMCPClient.invoke_tool c5_client c5_env "list_products" []
        true).2.getMetric "list_products").failure_count = 2 ∧
    (EnhancedMCPClient.invoke_tool c5_client c5_env "list_products" [] true).1
      = .errorDict "Failed after 3 attempts" := by
  decide

/-! ## Fallback handler (`mcp_fallback_handler.py`, class `MCPFallbackHandler`) -/

namespace MCPFallbackHandler

/-- The attributes (fields and methods) an `MCPFallbackHandler` instance has,
read off the class body. -/
def attrs : List String :=
  ["db_path", "fallback_mode", "fallback_reasons", "fallback_tools",
   "_find_database", "enable_fallback", "disable_fallback", "is_tool_supported",
   "execute_fallback_tool", "_execute_query", "_fallback_list_products",
   "_fallback_search_customers", "_fallback_get_customer_orders",
   "_fallback_customer_value_by_status", "_fallback_sales_by_month",
   "get_fallback_status"]

/-- Keys of `self.fallback_tools`. -/
def fallbackToolNames : List String :=
  ["list_products", "search_customers", "get_customer_orders",
   "get_customer_value_by_status", "sales_by_month"]

/-- `MCPFallbackHandler.is_tool_supported`. -/
def is_tool_supported (tool_name : String) : Bool :=
  fallbackToolNames.contains tool_name

/-- Python attribute lookup on an `MCPFallbackHandler` instance. -/
def hasAttr (attr : String) : Bool :=
  attrs.contains attr

end MCPFallbackHandler

/-! ## Orchestrator (`mcp_orchestrator.py`, class `MCPOrchestrator`)

The enhanced client's behaviour during one `execute_tool` call is abstracted
by `primary : Nat → Except String ToolPayload`: attempt `k` of
`await self.enhanced_client.invoke_tool(...)` either returns a payload or
raises (carrying `str(e)`).  Raising Python code is modelled in
`Except PyError`. -/

/-- A raised Python exception. -/
inductive PyError where
  | attributeError (attr : String)
  | typeError (msg : String)
deriving DecidableEq, Repr

instance {ε α : Type} [DecidableEq ε] [DecidableEq α] : DecidableEq (Except ε α) := fun x y =>
  match x, y with
  | .ok a, .ok b =>
      if h : a = b then .isTrue (by rw [h]) else .isFalse (fun hc => h (Except.ok.inj hc))
  | .error a, .error b =>
      if h : a = b then .isTrue (by rw [h]) else .isFalse (fun hc => h (Except.error.inj hc))
  | .ok _, .error _ => .isFalse (fun hc => Except.noConfusion hc)
  | .error _, .ok _ => .isFalse (fun hc => Except.noConfusion hc)

inductive ExecutionMode where
  | PRIMARY
  | FALLBACK
  | DEGRADED
  | RECOVERY
deriving DecidableEq, Repr

/-- `RecoveryStrategy` dataclass.  The three delay fields only control
sleep durations, which are unobservable here. -/
structure RecoveryStrategy where
  max_retries : Nat := 3
  initial_delay : Nat := 1
  max_delay : Nat := 60
  backoff_factor : Nat := 2
  recovery_window : Nat := 300
deriving DecidableEq, Repr

/-- `ExecutionResult` dataclass.  `execution_time` is wall-clock elapsed
time, which this embedding does not measure: it is always 0 here. -/
structure ExecutionResult where
  success : Bool
  result : Option ToolPayload
  mode : ExecutionMode
  execution_time : Nat
  error : Option String := none
  retries : Nat := 0
deriving DecidableEq, Repr

/-- The orchestrator state relevant to the claims (metrics maps and the
bounded histories are omitted). -/
structure MCPOrchestrator where
  recovery_strategy : RecoveryStrategy
  has_fallback : Bool
  current_mode : ExecutionMode
  consecutive_errors : Nat
  error_threshold : Nat
  recovery_attempts : Nat
  last_recovery_attempt : Option Nat
deriving DecidableEq, Repr

namespace MCPOrchestrator

/-- The `for attempt in range(max_retries)` loop of `_try_primary_execution`.
`fuel` is the number of remaining iterations. -/
def tryPrimaryLoop (primary : Nat → Except String ToolPayload) :
    Nat → Nat → Nat → Option String → ExecutionResult
  | _, 0, retries, last_error =>
      { success := false, result := none, mode := .PRIMARY, execution_time := 0,
        error := last_error, retries := retries }
  | attempt, fuel + 1, retries, _ =>
      match primary attempt with
      | .ok v =>
          { success := true, result := some v, mode := .PRIMARY, execution_time := 0,
            error := none, retries := retries }
      | .error e => tryPrimaryLoop primary (attempt + 1) fuel (retries + 1) (some e)

/-- `MCPOrchestrator._try_primary_execution`. -/
def _try_primary_execution (strat : RecoveryStrategy)
    (primary : Nat → Except String ToolPayload) : ExecutionResult :=
  tryPrimaryLoop primary 0 strat.max_retries 0 none

/-- `MCPOrchestrator._can_use_fallback`: the code calls
`self.fallback_handler.supports_tool(tool_name)`, but `MCPFallbackHandler`
defines no attribute of that name (its membership check is called
`is_tool_supported`), so with a configured handler the attribute lookup
raises `AttributeError`. -/
def _can_use_fallback (o : MCPOrchestrator) (tool_name : String) :
    Except PyError Bool :=
  if o.has_fallback = false then .ok false
  else if MCPFallbackHandler.hasAttr "supports_tool" then
    .ok (MCPFallbackHandler.is_tool_supported tool_name)
  else
    .error (.attributeError "supports_tool")

/-- `MCPOrchestrator._try_fallback_execution`: the code calls
`self.fallback_handler.execute_fallback(...)`, again an attribute
`MCPFallbackHandler` does not define (the implementation is called
`execute_fallback_tool`); the `AttributeError` is caught by the surrounding
`try` and turned into a failed result. -/
def _try_fallback_execution (previous_retries : Nat) : ExecutionResult :=
  { success := false, result := none, mode := .FALLBACK, execution_time := 0,
    error := some "AttributeError: execute_fallback", retries := previous_retries }

/-- `MCPOrchestrator._handle_successful_execution` (metrics update omitted;
the possibly scheduled `_attempt_recovery` task is modelled as the separate
operation `_attempt_recovery`). -/
def _handle_successful_execution (o : MCPOrchestrator) : MCPOrchestrator :=
  { o with consecutive_errors := 0 }

/-- The degraded result `execute_tool` builds when everything failed. -/
def degradedResult (retries : Nat) : ExecutionResult :=
  { success := false, result := none, mode := .DEGRADED, execution_time := 0,
    error := some "All execution methods failed", retries := retries }

/-- The fallback-then-degraded second half of `execute_tool`
(`if self.fallback_handler and self._can_use_fallback(tool_name): ...`). -/
def fallbackPhase (o : MCPOrchestrator) (tool_name : String) (retries : Nat) :
    Except PyError (ExecutionResult × MCPOrchestrator) :=
  if o.has_fallback then
    match o._can_use_fallback tool_name with
    | .error e => .error e
    | .ok true =>
        let r := _try_fallback_execution retries
        if r.success then .ok (r, o._handle_successful_execution)
        else .ok (degradedResult retries, o)
    | .ok false => .ok (degradedResult retries, o)
  else .ok (degradedResult retries, o)

/-- `MCPOrchestrator.execute_tool`. -/
def execute_tool (o : MCPOrchestrator) (tool_name : String)
    (primary : Nat → Except String ToolPayload) :
    Except PyError (ExecutionResult × MCPOrchestrator) :=
  if o.current_mode = .PRIMARY ∨ o.current_mode = .RECOVERY then
    let r := _try_primary_execution o.recovery_strategy primary
    if r.success then .ok (r, o._handle_successful_execution)
    else o.fallbackPhase tool_name r.retries
  else o.fallbackPhase tool_name 0

/-- `MCPOrchestrator._switch_mode`. -/
def _switch_mode (o : MCPOrchestrator) (new_mode : ExecutionMode) : MCPOrchestrator :=
  if new_mode ≠ o.current_mode then { o with current_mode := new_mode } else o

/-- `MCPOrchestrator._handle_failure` (monitor failure callback; the error
string only feeds the omitted bounded history). -/
def _handle_failure (o : MCPOrchestrator) : MCPOrchestrator :=
  let o := { o with consecutive_errors := o.consecutive_errors + 1 }
  if o.error_threshold ≤ o.consecutive_errors then
    if o.current_mode = .PRIMARY then
      if o.has_fallback then o._switch_mode .FALLBACK else o._switch_mode .DEGRADED
    else o
  else o

/-- Number of positional parameters (besides `self`) that
`EnhancedMCPClient.get_available_tools` accepts. -/
def get_available_tools_arity : Nat := 0

/-- A Python call of `client.get_available_tools` with `args` extra positional
arguments: a wrong arity raises `TypeError` before the body can run; with the
right arity the body returns `list(self.tools.keys())`. -/
def callGetAvailableTools (tools : List String) (args : Nat) :
    Except PyError (List String) :=
  if args = get_available_tools_arity then .ok tools
  else .error (.typeError "get_available_tools takes 1 positional argument")

/-- `MCPOrchestrator._test_primary_connection`: the code calls
`self.enhanced_client.get_available_tools("primary")` — one positional
argument too many — so the call raises `TypeError`, `except Exception`
catches it, and the probe returns `False` whatever tools the client has. -/
def _test_primary_connection (tools : List String) : Bool :=
  match callGetAvailableTools tools 1 with
  | .ok ts => decide (0 < ts.length)
  | .error _ => false

/-- `MCPOrchestrator._should_attempt_recovery`. -/
def _should_attempt_recovery (o : MCPOrchestrator) (now : Nat) : Bool :=
  match o.last_recovery_attempt with
  | none => true
  | some t => decide (o.recovery_strategy.recovery_window < now - t)

/-- `MCPOrchestrator._attempt_recovery`; `tools` is the toolset the enhanced
client holds when the probe runs. -/
def _attempt_recovery (o : MCPOrchestrator) (now : Nat) (tools : List String) :
    MCPOrchestrator :=
  if o.current_mode = .PRIMARY then o
  else
    let o := { o with
      last_recovery_attempt := some now
      recovery_attempts := o.recovery_attempts + 1 }
    let o := o._switch_mode .RECOVERY
    if _test_primary_connection tools then
      let o := o._switch_mode .PRIMARY
      { o with recovery_attempts := 0 }
    else
      o._switch_mode (if o.has_fallback then .FALLBACK else .DEGRADED)

theorem tryPrimaryLoop_all_fail (primary : Nat → Except String ToolPayload) :
    ∀ (fuel attempt retries : Nat) (le : Option String),
    (∀ k, attempt ≤ k → k < attempt + fuel → ∃ e, primary k = .error e) →
    (tryPrimaryLoop primary attempt fuel retries le).success = false ∧
    (tryPrimaryLoop primary attempt fuel retries le).retries = retries + fuel := by
  intro fuel
  induction fuel with
  | zero => intro attempt retries le _; simp [tryPrimaryLoop]
  | succ f ih =>
    intro attempt retries le hfail
    obtain ⟨e, he⟩ := hfail attempt (le_refl _) (by omega)
    have step : tryPrimaryLoop primary attempt (f + 1) retries le
        = tryPrimaryLoop primary (attempt + 1) f (retries + 1) (some e) := by
      simp [tryPrimaryLoop, he]
    rw [step]
    have hfail2 : ∀ k, attempt + 1 ≤ k → k < attempt + 1 + f → ∃ e2, primary k = .error e2 :=
      fun k hk1 hk2 => hfail k (by omega) (by omega)
    obtain ⟨h1, h2⟩ := ih (attempt + 1) (retries + 1) (some e) hfail2
    exact ⟨h1, by omega⟩

theorem tryPrimaryLoop_eventual_success (primary : Nat → Except String ToolPayload)
    (v : ToolPayload) :
    ∀ (fuel attempt retries : Nat) (le : Option String),
    1 ≤ fuel →
    (∀ k, attempt ≤ k → k + 1 < attempt + fuel → ∃ e, primary k = .error e) →
    primary (attempt + fuel - 1) = .ok v →
    (tryPrimaryLoop primary attempt fuel retries le).success = true ∧
    (tryPrimaryLoop primary attempt fuel retries le).result = some v ∧
    (tryPrimaryLoop primary attempt fuel retries le).mode = .PRIMARY ∧
    (tryPrimaryLoop primary attempt fuel retries le).error = none ∧
    (tryPrimaryLoop primary attempt fuel retries le).retries = retries + fuel - 1 := by
  intro fuel
  induction fuel with
  | zero => intro attempt retries le h; omega
  | succ f ih =>
    intro attempt retries le _ hfail hok
    cases f with
    | zero =>
      have ha : attempt + 1 - 1 = attempt := by omega
      rw [ha] at hok
      simp [tryPrimaryLoop, hok]
    | succ f2 =>
      obtain ⟨e, he⟩ := hfail attempt (le_refl _) (by omega)
      have step : tryPrimaryLoop primary attempt (f2 + 1 + 1) retries le
          = tryPrimaryLoop primary (attempt + 1) (f2 + 1) (retries + 1) (some e) := by
        simp [tryPrimaryLoop, he]
      rw [step]
      have hok2 : primary (attempt + 1 + (f2 + 1) - 1) = .ok v := by
        have ha : attempt + 1 + (f2 + 1) - 1 = attempt + (f2 + 1 + 1) - 1 := by omega
        rw [ha]; exact hok
      have hfail2 : ∀ k, attempt + 1 ≤ k → k + 1 < attempt + 1 + (f2 + 1) →
          ∃ e2, primary k = .error e2 :=
        fun k hk1 hk2 => hfail k (by omega) (by omega)
      obtain ⟨h1, h2, h3, h4, h5⟩ := ih (attempt + 1) (retries + 1) (some e)
        (by omega) hfail2 hok2
      exact ⟨h1, h2, h3, h4, by omega⟩

end MCPOrchestrator

/-- C3: a tool call whose target raises on each of the first
`max_retries - 1` attempts and returns on the next yields a successful
`ExecutionResult` with `retries = max_retries - 1`; a target that raises on
every attempt yields a failed result with `retries = max_retries`, i.e.
failure after exactly `max_retries` attempts. -/
theorem C3_retry_accounting (strat : RecoveryStrategy) (hmr : 1 ≤ strat.max_retries) :
    (∀ (primary : Nat → Except String ToolPayload) (v : ToolPayload),
      (∀ k, k < strat.max_retries - 1 → ∃ e, primary k = .error e) →
      primary (strat.max_retries - 1) = .ok v →
      (MCPOrchestrator._try_primary_execution strat primary).success = true ∧
      (MCPOrchestrator._try_primary_execution strat primary).result = some v ∧
      (MCPOrchestrator._try_primary_execution strat primary).mode = .PRIMARY ∧
      (MCPOrchestrator._try_primary_execution strat primary).error = none ∧
      (MCPOrchestrator._try_primary_execution strat primary).retries
        = strat.max_retries - 1) ∧
    (∀ (primary : Nat → Except String ToolPayload),
      (∀ k, ∃ e, primary k = .error e) →
      (MCPOrchestrator._try_primary_execution strat primary).success = false ∧
      (MCPOrchestrator._try_primary_execution strat primary).retries
        = strat.max_retries) := by
  constructor
  · intro primary v hfail hok
    have h := MCPOrchestrator.tryPrimaryLoop_eventual_success primary v
      strat.max_retries 0 0 none hmr
      (fun k hk1 hk2 => hfail k (by omega))
      (by simpa using hok)
    simpa [MCPOrchestrator._try_primary_execution] using h
  · intro primary hfail
    have h := MCPOrchestrator.tryPrimaryLoop_all_fail primary
      strat.max_retries 0 0 none (fun k _ _ => hfail k)
    simpa [MCPOrchestrator._try_primary_execution] using h

/-- Witness for C3 with `max_retries = 3`: two raises then a success gives
`retries = 2`; all raises gives failure with `retries = 3`. -/
theorem C3_retry_accounting_witness :
    ((MCPOrchestrator._try_primary_execution ⟨3, 1, 60, 2, 300⟩
        (fun k => if k < 2 then .error "boom" else .ok (.success 7))).success = true ∧
      (MCPOrchestrator._try_primary_execution ⟨3, 1, 60, 2, 300⟩
        (fun k => if k < 2 then .error "boom" else .ok (.success 7))).result
        = some (.success 7) ∧
      (MCPOrchestrator._try_primary_execution ⟨3, 1, 60, 2, 300⟩
        (fun k => if k < 2 then .error "boom" else .ok (.success 7))).mode = .PRIMARY ∧
      (MCPOrchestrator._try_primary_execution ⟨3, 1, 60, 2, 300⟩
        (fun k => if k < 2 then .error "boom" else .ok (.success 7))).error = none ∧
      (MCPOrchestrator._try_primary_execution ⟨3, 1, 60, 2, 300⟩
        (fun k => if k < 2 then .error "boom" else .ok (.success 7))).retries = 3 - 1) ∧
    ((MCPOrchestrator._try_primary_execution ⟨3, 1, 60, 2, 300⟩
        (fun _ => .error "boom")).success = false ∧
      (MCPOrchestrator._try_primary_execution ⟨3, 1, 60, 2, 300⟩
        (fun _ => .error "boom")).retries = 3) :=
  ⟨(C3_retry_accounting ⟨3, 1, 60, 2, 300⟩ (by decide)).1
      (fun k => if k < 2 then .error "boom" else .ok (.success 7)) (.success 7)
      (fun k hk => ⟨"boom", by simp [show k < 2 from hk]⟩) (by decide),
    (C3_retry_accounting ⟨3, 1, 60, 2, 300⟩ (by decide)).2
      (fun _ => .error "boom") (fun _ => ⟨"boom", rfl⟩)⟩

/-- The C1 failing input: an orchestrator in PRIMARY mode with a configured
fallback handler (`database_path` given, so `fallback_handler` is not None)
and default recovery strategy. -/
def c1_orchestrator : MCPOrchestrator :=
  { recovery_strategy := ⟨3, 1, 60, 2, 300⟩
    has_fallback := true
    current_mode := .PRIMARY
    consecutive_errors := 0
    error_threshold := 3
    recovery_attempts := 0
    last_recovery_attempt := none }

/-- C1 (code bug): when the primary path fails on every attempt and a
fallback handler is configured, `execute_tool` raises `AttributeError`
(`_can_use_fallback` calls the nonexistent `supports_tool` attribute of
`MCPFallbackHandler`) instead of returning a structured `ExecutionResult`;
only without a fallback handler does the caller get the structured
degraded result. -/
theorem C1_execute_tool_raises :
    MCPOrchestrator.execute_tool c1_orchestrator "list_products"
        (fun _ => .error "connection refused")
      = .error (.attributeError "supports_tool") ∧
    MCPOrchestrator.execute_tool { c1_orchestrator with has_fallback := false }
        "list_products" (fun _ => .error "connection refused")
      = .ok (MCPOrchestrator.degradedResult 3,
             { c1_orchestrator with has_fallback := false }) := by
  decide

/-- C4 (code bug): (1) three consecutive primary failures from PRIMARY mode
with the default threshold 3 switch the mode to FALLBACK when a fallback
handler is configured and to DEGRADED otherwise; (2) `_should_attempt_recovery`
does hold once the recovery window has elapsed since the last recovery
attempt; but (3) `_test_primary_connection` returns `false` for every
toolset (the call `get_available_tools("primary")` raises `TypeError`,
caught as a failed probe), so (4) `_attempt_recovery` from FALLBACK mode
always reverts to FALLBACK: the mode never returns to PRIMARY. -/
theorem C4_mode_transitions (o : MCPOrchestrator)
    (hmode : o.current_mode = .PRIMARY) (hce : o.consecutive_errors = 0)
    (hth : o.error_threshold = 3) :
    ((o._handle_failure._handle_failure._handle_failure).current_mode
      = (if o.has_fallback then .FALLBACK else .DEGRADED)) ∧
    (∀ (o2 : MCPOrchestrator) (tLast now : Nat),
      o2.last_recovery_attempt = some tLast →
      o2.recovery_strategy.recovery_window < now - tLast →
      o2._should_attempt_recovery now = true) ∧
    (∀ tools : List String, MCPOrchestrator._test_primary_connection tools = false) ∧
    (∀ (o2 : MCPOrchestrator) (now : Nat) (tools : List String),
      o2.current_mode = .FALLBACK → o2.has_fallback = true →
      (o2._attempt_recovery now tools).current_mode = .FALLBACK) := by
  refine ⟨?_, ?_, ?_, ?_⟩
  · obtain ⟨strat, hf, mode, ce, th, ra, lra⟩ := o
    simp only [MCPOrchestrator.current_mode] at hmode
    simp only [MCPOrchestrator.consecutive_errors] at hce
    simp only [MCPOrchestrator.error_threshold] at hth
    subst hmode; subst hce; subst hth
    cases hf <;>
      simp [MCPOrchestrator._handle_failure, MCPOrchestrator._switch_mode]
  · intro o2 tLast now hl hw
    obtain ⟨strat, hf, mode, ce, th, ra, lra⟩ := o2
    simp only [MCPOrchestrator.last_recovery_attempt] at hl
    subst hl
    simp only [MCPOrchestrator.recovery_strategy] at hw
    simp [MCPOrchestrator._should_attempt_recovery, hw]
  · intro tools
    simp [MCPOrchestrator._test_primary_connection, MCPOrchestrator.callGetAvailableTools,
      MCPOrchestrator.get_available_tools_arity]
  · intro o2 now tools hmode2 hfb
    obtain ⟨strat, hf, mode, ce, th, ra, lra⟩ := o2
    simp only [MCPOrchestrator.current_mode] at hmode2
    simp only [MCPOrchestrator.has_fallback] at hfb
    subst hmode2; subst hfb
    simp [MCPOrchestrator._attempt_recovery, MCPOrchestrator._switch_mode,
      MCPOrchestrator._test_primary_connection, MCPOrchestrator.callGetAvailableTools,
      MCPOrchestrator.get_available_tools_arity]

/-- Witness for C4 at the concrete failing input: FALLBACK orchestrator,
recovery window elapsed, healthy primary with a nonempty toolset. -/
theorem C4_mode_transitions_witness :
    ((c1_orchestrator._handle_failure._handle_failure._handle_failure).current_mode
      = (if c1_orchestrator.has_fallback then .FALLBACK else .DEGRADED)) ∧
    (∀ (o2 : MCPOrchestrator) (tLast now : Nat),
      o2.last_recovery_attempt = some tLast →
      o2.recovery_strategy.recovery_window < now - tLast →
      o2._should_attempt_recovery now = true) ∧
    (∀ tools : List String, MCPOrchestrator._test_primary_connection tools = false) ∧
    (∀ (o2 : MCPOrchestrator) (now : Nat) (tools : List String),
      o2.current_mode = .FALLBACK → o2.has_fallback = true →
      (o2._attempt_recovery now tools).current_mode = .FALLBACK) :=
  C4_mode_transitions c1_orchestrator (by decide) (by decide) (by decide)

def c10_env_4xx : NetEnv := ⟨fun _ => .httpStatus 404 "Not Found", 100, 7⟩

def c10_env_neterr : NetEnv := ⟨fun _ => .requestError "connection refused", 100, 7⟩

def c10_client : EnhancedMCPClient := ⟨3, 300, [], []⟩

/-- C10: `EnhancedMCPClient.invoke_tool` returns — instead of raising — an
error dictionary with status error both for an HTTP 4xx response and for
exhausted retries; `_try_primary_execution` classifies any returned value as
a success, so `execute_tool` in PRIMARY mode returns an `ExecutionResult`
with `success = true` and `mode = PRIMARY` whose payload is such an error
dictionary. -/
theorem C10_error_dict_counts_as_success :
    (EnhancedMCPClient.invoke_tool c10_client c10_env_4xx "t" [] true).1
      = .errorDict "HTTP 404: Not Found" ∧
    (EnhancedMCPClient.invoke_tool c10_client c10_env_neterr "t" [] true).1
      = .errorDict "Failed after 3 attempts" ∧
    (∀ (o : MCPOrchestrator) (msg : String),
      o.current_mode = .PRIMARY → 1 ≤ o.recovery_strategy.max_retries →
      MCPOrchestrator.execute_tool o "t" (fun _ => .ok (.errorDict msg))
        = .ok ({ success := true, result := some (.errorDict msg), mode := .PRIMARY,
                 execution_time := 0, error := none, retries := 0 },
               o._handle_successful_execution)) := by
  refine ⟨by decide, by decide, ?_⟩
  intro o msg hmode hmr
  obtain ⟨strat, hf, mode, ce, th, ra, lra⟩ := o
  simp only [MCPOrchestrator.current_mode] at hmode
  subst hmode
  obtain ⟨mr, d1, d2, d3, rw0⟩ := strat
  simp only [MCPOrchestrator.recovery_strategy, RecoveryStrategy.max_retries] at hmr
  cases mr with
  | zero => omega
  | succ n =>
    simp [MCPOrchestrator.execute_tool, MCPOrchestrator._try_primary_execution,
      MCPOrchestrator.tryPrimaryLoop, MCPOrchestrator._handle_successful_execution]

/-- Witness for C10 at a concrete PRIMARY orchestrator. -/
theorem C10_error_dict_counts_as_success_witness :
    MCPOrchestrator.execute_tool c1_orchestrator "t"
        (fun _ => .ok (.errorDict "HTTP 404: Not Found"))
      = .ok ({ success := true, result := some (.errorDict "HTTP 404: Not Found"),
               mode := .PRIMARY, execution_time := 0, error := none, retries := 0 },
             c1_orchestrator._handle_successful_execution) :=
  C10_error_dict_counts_as_success.2.2 c1_orchestrator "HTTP 404: Not Found"
    (by decide) (by decide)

/-! ## Batch executor (`mcp_connection_monitor.py`, class `BatchExecutor`)

A batched call is a tool name together with what `client.invoke_tool` does
for it: return a dict (whose observable feature is its status string; the
rest of the payload is abstracted by a `Nat`) or raise. -/

/-- What `client.invoke_tool` does for one batched call. -/
inductive CallOutcome where
  | ret (status : String) (v : Nat)
  | raise (msg : String)
deriving DecidableEq, Repr

abbrev BatchCall := String × CallOutcome

/-- An entry of the results list: a dict returned by the client, or an error
dict `status error / error message / tool_name` built by the executor. -/
inductive BatchItemResult where
  | returned (status : String) (v : Nat)
  | errorResult (error : String) (tool_name : String)
deriving DecidableEq, Repr

/-- `result.get('status') == 'error'` on the call's outcome (true as well for
a raise, which the executor converts into an error dict). -/
def isErrorOutcome : BatchCall → Bool
  | (_, .ret status _) => status == "error"
  | (_, .raise _) => true

/-- The `while len(results) < len(tool_calls)` filler of
`_execute_sequential`. -/
def skippedFill (rest : List BatchCall) : List BatchItemResult :=
  rest.map (fun c => .errorResult "Skipped due to previous error" c.1)

/-- `BatchExecutor._execute_sequential`: invoke each call in order; on a
returned error status or a raise with `stop_on_error`, stop and fill the
remaining slots with the skipped error result. -/
def _execute_sequential (stop_on_error : Bool) : List BatchCall → List BatchItemResult
  | [] => []
  | (name, .ret status v) :: rest =>
      if stop_on_error && (status == "error") then
        .returned status v :: skippedFill rest
      else
        .returned status v :: _execute_sequential stop_on_error rest
  | (name, .raise msg) :: rest =>
      if stop_on_error then
        .errorResult msg name :: skippedFill rest
      else
        .errorResult msg name :: _execute_sequential stop_on_error rest

/-- Slot `index` of `_execute_parallel` once task `index` has run: the
returned dict, the executor's error dict for the task's own raise, or — with
`stop_on_error` and an error status — the error dict for the exception the
task then raises onto itself before re-raising. -/
def parallelSlot (stop_on_error : Bool) : BatchCall → BatchItemResult
  | (name, .ret status v) =>
      if stop_on_error && (status == "error") then
        .errorResult ("Tool " ++ name ++ " failed") name
      else .returned status v
  | (name, .raise msg) => .errorResult msg name

/-- `BatchExecutor._execute_parallel`: `results = [None] * len(tool_calls)`;
each task writes only its own slot.  Without `stop_on_error`,
`asyncio.gather(..., return_exceptions=True)` waits for every task, so every
slot is filled; with `stop_on_error` the first exception makes `gather`
return early, but the other tasks are not cancelled — a slot holds its own
call's outcome if that task finished (`completed`) and is still `None`
otherwise.  No slot is ever given the sequential path's skipped marker. -/
def _execute_parallel (stop_on_error : Bool) (calls : List BatchCall)
    (completed : Nat → Bool) : List (Option BatchItemResult) :=
  (List.range calls.length).map (fun i =>
    if !stop_on_error || completed i then (calls.get? i).map (parallelSlot stop_on_error)
    else none)

/-- `BatchExecutor.execute_batch` (statistics bookkeeping omitted). -/
def execute_batch (calls : List BatchCall) (parallel stop_on_error : Bool)
    (completed : Nat → Bool) : List (Option BatchItemResult) :=
  if parallel then _execute_parallel stop_on_error calls completed
  else (_execute_sequential stop_on_error calls).map some

theorem _execute_sequential_length (stop : Bool) (calls : List BatchCall) :
    (_execute_sequential stop calls).length = calls.length := by
  induction calls with
  | nil => simp [_execute_sequential]
  | cons c rest ih =>
    obtain ⟨name, oc⟩ := c
    cases oc with
    | ret status v =>
      by_cases h : (stop && (status == "error")) = true <;>
        simp [_execute_sequential, h, skippedFill, ih]
    | raise msg =>
      cases stop <;> simp [_execute_sequential, skippedFill, ih]

theorem _execute_sequential_skips (calls : List BatchCall) :
    ∀ (k : Nat) (ck : BatchCall),
    calls.get? k = some ck → isErrorOutcome ck = true →
    (∀ j cj, j < k → calls.get? j = some cj → isErrorOutcome cj = false) →
    ∀ j cj, k < j → calls.get? j = some cj →
    (_execute_sequential true calls).get? j
      = some (.errorResult "Skipped due to previous error" cj.1) := by
  induction calls with
  | nil => intro k ck hk; simp at hk
  | cons c0 rest ih =>
    intro k ck hk herr hprev j cj hkj hj
    cases k with
    | zero =>
      have hc0 : c0 = ck := by simpa using hk
      subst hc0
      cases j with
      | zero => omega
      | succ j2 =>
        have hjr : rest.get? j2 = some cj := by simpa using hj
        obtain ⟨name, oc⟩ := c0
        cases oc with
        | ret status v =>
          have hst : (status == "error") = true := by simpa [isErrorOutcome] using herr
          simp only [_execute_sequential, hst, Bool.and_true, Bool.true_and, if_true,
            List.get?_cons_succ, skippedFill, List.get?_map]
          rw [hjr]
          rfl
        | raise msg =>
          simp only [_execute_sequential, if_true, List.get?_cons_succ,
            skippedFill, List.get?_map]
          rw [hjr]
          rfl
    | succ k2 =>
      have h0 : isErrorOutcome c0 = false := hprev 0 c0 (by omega) (by simp)
      obtain ⟨name, oc⟩ := c0
      cases oc with
      | raise msg => simp [isErrorOutcome] at h0
      | ret status v =>
        have hst : (status == "error") = false := by simpa [isErrorOutcome] using h0
        cases j with
        | zero => omega
        | succ j2 =>
          have hkr : rest.get? k2 = some ck := by simpa using hk
          have hjr : rest.get? j2 = some cj := by simpa using hj
          have hprev2 : ∀ j3 cj3, j3 < k2 → rest.get? j3 = some cj3 →
              isErrorOutcome cj3 = false := by
            intro j3 cj3 hj3 hg
            exact hprev (j3 + 1) cj3 (by omega) (by simpa using hg)
          have hrec := ih k2 ck hkr herr hprev2 j2 cj (by omega) hjr
          simpa [_execute_sequential, hst] using hrec

/-- C8 counterexample: a parallel batch with `stop_on_error = true` whose
first call returns an error status and whose second call succeeds; once both
tasks have run, position 1 holds the second call's own successful result, not
the skipped error result the claim requires for positions after the
failure. -/
theorem C8_counterexample :
    execute_batch [("a", .ret "error" 0), ("b", .ret "success" 7)] true true
        (fun _ => true)
      = [some (.errorResult "Tool a failed" "a"), some (.returned "success" 7)] ∧
    (execute_batch [("a", .ret "error" 0), ("b", .ret "success" 7)] true true
        (fun _ => true)).get? 1
      ≠ some (some (.errorResult "Skipped due to previous error" "b")) := by
  decide

/-- C8 amended: `execute_batch` of N calls returns exactly N result slots in
input order in both modes; with `stop_on_error = true` the skipped-error
filling of positions after the first failure happens in sequential mode
only — in parallel mode each slot depends only on its own call (it holds that
call's own outcome once its task has run, never a skipped marker). -/
theorem C8_batch_results (calls : List BatchCall) (parallel stop_on_error : Bool)
    (completed : Nat → Bool) :
    (execute_batch calls parallel stop_on_error completed).length = calls.length ∧
    (∀ (k : Nat) (ck : BatchCall), calls.get? k = some ck → isErrorOutcome ck = true →
      (∀ j cj, j < k → calls.get? j = some cj → isErrorOutcome cj = false) →
      ∀ j cj, k < j → calls.get? j = some cj →
      (execute_batch calls false true completed).get? j
        = some (some (.errorResult "Skipped due to previous error" cj.1))) ∧
    (∀ (calls2 : List BatchCall) (i : Nat), calls.length = calls2.length →
      calls.get? i = calls2.get? i →
      (execute_batch calls true stop_on_error completed).get? i
        = (execute_batch calls2 true stop_on_error completed).get? i) := by
  refine ⟨?_, ?_, ?_⟩
  · by_cases hp : parallel = true <;>
      simp [execute_batch, _execute_parallel, hp, _execute_sequential_length]
  · intro k ck hk herr hprev j cj hkj hj
    have h := _execute_sequential_skips calls k ck hk herr hprev j cj hkj hj
    rw [List.get?_eq_getElem?] at h
    simp [execute_batch, List.getElem?_map, h]
  · intro calls2 i hlen hsame
    have hsame2 : calls[i]? = calls2[i]? := by
      simpa [List.get?_eq_getElem?] using hsame
    by_cases hi : i < calls.length
    · have hi2 : i < calls2.length := hlen ▸ hi
      simp [execute_batch, _execute_parallel, List.getElem?_map,
        List.getElem?_range, hi, hi2, hsame2]
    · have hi2 : ¬ i < calls2.length := fun h => hi (hlen ▸ h)
      have h1 : (List.range calls.length)[i]? = none := by
        apply List.getElem?_eq_none
        simpa using by omega
      have h2 : (List.range calls2.length)[i]? = none := by
        apply List.getElem?_eq_none
        simpa using by omega
      simp [execute_batch, _execute_parallel, List.getElem?_map, h1, h2]

/-- Witness for C8 amended: in a concrete sequential batch whose call 1
raises, position 2 holds the skipped error result. -/
theorem C8_batch_results_witness :
    (execute_batch [("a", .ret "success" 1), ("b", .raise "boom"),
        ("c", .ret "success" 2)] false true (fun _ => true)).get? 2
      = some (some (.errorResult "Skipped due to previous error" "c")) :=
  (C8_batch_results [("a", .ret "success" 1), ("b", .raise "boom"),
      ("c", .ret "success" 2)] false true (fun _ => true)).2.1
    1 ("b", .raise "boom") (by decide) (by decide)
    (by
      intro j cj hj hg
      have hj0 : j = 0 := by omega
      subst hj0
      have : (("a", CallOutcome.ret "success" 1) : BatchCall) = cj := by simpa using hg
      subst this
      decide)
    2 ("c", .ret "success" 2) (by decide) (by decide)

end MCPToolbox
